import Mathlib

/-
  Verification development for the Portal repository.

  The portal math library (PortalMath.h), the crossing detector / teleporter
  (PortalTeleporter.h) and the two recursive portal renderers
  (PortalRenderer.h and main_example.cpp) are shallowly embedded below.
  Vectors and matrices are modelled over the rationals: the C++ code computes
  with 32-bit floats, and the embedding is the exact-arithmetic idealisation
  of the same formulas.  Rigid 4x4 frames (rotation plus translation with the
  homogeneous bottom row 0 0 0 1) are modelled as a 3x3 linear part plus a
  translation vector; glm's general 4x4 inverse coincides on such matrices
  with the affine inverse computed here via the 3x3 adjugate.
-/

/-- A 3-component vector with rational entries (glm::vec3). -/
@[ext]
structure Vec3 where
  x : ℚ
  y : ℚ
  z : ℚ
deriving DecidableEq, Repr

/-- A 3x3 matrix with rational entries, row-major field names:
`m R C` is the entry in row R, column C. -/
@[ext]
structure Mat3 where
  m00 : ℚ
  m01 : ℚ
  m02 : ℚ
  m10 : ℚ
  m11 : ℚ
  m12 : ℚ
  m20 : ℚ
  m21 : ℚ
  m22 : ℚ
deriving DecidableEq, Repr

def add3 (a b : Vec3) : Vec3 := ⟨a.x + b.x, a.y + b.y, a.z + b.z⟩

def sub3 (a b : Vec3) : Vec3 := ⟨a.x - b.x, a.y - b.y, a.z - b.z⟩

def neg3 (a : Vec3) : Vec3 := ⟨-a.x, -a.y, -a.z⟩

def smul3 (c : ℚ) (a : Vec3) : Vec3 := ⟨c * a.x, c * a.y, c * a.z⟩

def dot3 (a b : Vec3) : ℚ := a.x * b.x + a.y * b.y + a.z * b.z

def vzero3 : Vec3 := ⟨0, 0, 0⟩

/-- glm::mix for vectors: `mix(a, b, t) = a + t * (b - a)`. -/
def mix3 (a b : Vec3) (t : ℚ) : Vec3 := add3 a (smul3 t (sub3 b a))

def mat3Id : Mat3 := ⟨1, 0, 0, 0, 1, 0, 0, 0, 1⟩

def mat3Mul (a b : Mat3) : Mat3 :=
  ⟨a.m00 * b.m00 + a.m01 * b.m10 + a.m02 * b.m20,
   a.m00 * b.m01 + a.m01 * b.m11 + a.m02 * b.m21,
   a.m00 * b.m02 + a.m01 * b.m12 + a.m02 * b.m22,
   a.m10 * b.m00 + a.m11 * b.m10 + a.m12 * b.m20,
   a.m10 * b.m01 + a.m11 * b.m11 + a.m12 * b.m21,
   a.m10 * b.m02 + a.m11 * b.m12 + a.m12 * b.m22,
   a.m20 * b.m00 + a.m21 * b.m10 + a.m22 * b.m20,
   a.m20 * b.m01 + a.m21 * b.m11 + a.m22 * b.m21,
   a.m20 * b.m02 + a.m21 * b.m12 + a.m22 * b.m22⟩

def mat3T (a : Mat3) : Mat3 :=
  ⟨a.m00, a.m10, a.m20, a.m01, a.m11, a.m21, a.m02, a.m12, a.m22⟩

def mulVec (a : Mat3) (v : Vec3) : Vec3 :=
  ⟨a.m00 * v.x + a.m01 * v.y + a.m02 * v.z,
   a.m10 * v.x + a.m11 * v.y + a.m12 * v.z,
   a.m20 * v.x + a.m21 * v.y + a.m22 * v.z⟩

def smulM (c : ℚ) (a : Mat3) : Mat3 :=
  ⟨c * a.m00, c * a.m01, c * a.m02, c * a.m10, c * a.m11, c * a.m12,
   c * a.m20, c * a.m21, c * a.m22⟩

def det3 (a : Mat3) : ℚ :=
  a.m00 * (a.m11 * a.m22 - a.m12 * a.m21)
  - a.m01 * (a.m10 * a.m22 - a.m12 * a.m20)
  + a.m02 * (a.m10 * a.m21 - a.m11 * a.m20)

/-- The classical adjugate (transposed cofactor matrix) of a 3x3 matrix. -/
def adj3 (a : Mat3) : Mat3 :=
  ⟨a.m11 * a.m22 - a.m12 * a.m21,
   a.m02 * a.m21 - a.m01 * a.m22,
   a.m01 * a.m12 - a.m02 * a.m11,
   a.m12 * a.m20 - a.m10 * a.m22,
   a.m00 * a.m22 - a.m02 * a.m20,
   a.m02 * a.m10 - a.m00 * a.m12,
   a.m10 * a.m21 - a.m11 * a.m20,
   a.m01 * a.m20 - a.m00 * a.m21,
   a.m00 * a.m11 - a.m01 * a.m10⟩

/-- Matrix inverse via the adjugate; coincides with the true inverse when the
determinant is nonzero (total function, garbage on singular input). -/
def mat3Inv (a : Mat3) : Mat3 := smulM (det3 a)⁻¹ (adj3 a)

/-- A rigid 4x4 frame (column-major glm matrix with orthonormal basis columns
and homogeneous bottom row 0 0 0 1): linear part plus translation (the fourth
column).  `lin` column k is the portal's local axis k expressed in world
space. -/
@[ext]
structure Frame where
  lin : Mat3
  trans : Vec3
deriving DecidableEq, Repr

def idFrame : Frame := ⟨mat3Id, vzero3⟩

/-- Apply a frame to a point (homogeneous weight 1). -/
def frameApply (f : Frame) (v : Vec3) : Vec3 := add3 (mulVec f.lin v) f.trans

/-- Apply a frame to a direction (homogeneous weight 0). -/
def frameApplyDir (f : Frame) (v : Vec3) : Vec3 := mulVec f.lin v

/-- Composition of frames as 4x4 matrix product: `(frameComp f g) v = f (g v)`. -/
def frameComp (f g : Frame) : Frame :=
  ⟨mat3Mul f.lin g.lin, add3 (mulVec f.lin g.trans) f.trans⟩

/-- glm::inverse on an affine matrix with invertible linear part. -/
def frameInv (f : Frame) : Frame :=
  ⟨mat3Inv f.lin, neg3 (mulVec (mat3Inv f.lin) f.trans)⟩

/-- Rigidity of a frame: the linear part is orthogonal (both product orders
stated; for square matrices they are equivalent). -/
def IsRigid (f : Frame) : Prop :=
  mat3Mul (mat3T f.lin) f.lin = mat3Id ∧ mat3Mul f.lin (mat3T f.lin) = mat3Id

instance (f : Frame) : Decidable (IsRigid f) := by
  unfold IsRigid; infer_instance

-- ===========================================================================
-- Basic algebraic lemmas about the 3x3 embedding
-- ===========================================================================

theorem mulVec_mat3Mul (a b : Mat3) (v : Vec3) :
    mulVec (mat3Mul a b) v = mulVec a (mulVec b v) := by
  obtain ⟨a00, a01, a02, a10, a11, a12, a20, a21, a22⟩ := a
  obtain ⟨b00, b01, b02, b10, b11, b12, b20, b21, b22⟩ := b
  obtain ⟨vx, vy, vz⟩ := v
  simp only [mat3Mul, mulVec]
  refine Vec3.ext ?_ ?_ ?_ <;> ring

theorem mulVec_id (v : Vec3) : mulVec mat3Id v = v := by
  obtain ⟨vx, vy, vz⟩ := v
  simp only [mat3Id, mulVec]
  refine Vec3.ext ?_ ?_ ?_ <;> ring

theorem adj3_mul (a : Mat3) : mat3Mul (adj3 a) a = smulM (det3 a) mat3Id := by
  obtain ⟨a00, a01, a02, a10, a11, a12, a20, a21, a22⟩ := a
  simp only [adj3, mat3Mul, det3, smulM, mat3Id]
  refine Mat3.ext ?_ ?_ ?_ ?_ ?_ ?_ ?_ ?_ ?_ <;> ring

theorem mul_adj3 (a : Mat3) : mat3Mul a (adj3 a) = smulM (det3 a) mat3Id := by
  obtain ⟨a00, a01, a02, a10, a11, a12, a20, a21, a22⟩ := a
  simp only [adj3, mat3Mul, det3, smulM, mat3Id]
  refine Mat3.ext ?_ ?_ ?_ ?_ ?_ ?_ ?_ ?_ ?_ <;> ring

theorem det3_mul (a b : Mat3) : det3 (mat3Mul a b) = det3 a * det3 b := by
  obtain ⟨a00, a01, a02, a10, a11, a12, a20, a21, a22⟩ := a
  obtain ⟨b00, b01, b02, b10, b11, b12, b20, b21, b22⟩ := b
  simp only [mat3Mul, det3]
  ring

theorem det3_transpose (a : Mat3) : det3 (mat3T a) = det3 a := by
  obtain ⟨a00, a01, a02, a10, a11, a12, a20, a21, a22⟩ := a
  simp only [mat3T, det3]
  ring

theorem det3_id : det3 mat3Id = 1 := by
  simp only [mat3Id, det3]
  norm_num

theorem smulM_mat3Mul (c : ℚ) (a b : Mat3) :
    mat3Mul (smulM c a) b = smulM c (mat3Mul a b) := by
  obtain ⟨a00, a01, a02, a10, a11, a12, a20, a21, a22⟩ := a
  obtain ⟨b00, b01, b02, b10, b11, b12, b20, b21, b22⟩ := b
  simp only [smulM, mat3Mul]
  refine Mat3.ext ?_ ?_ ?_ ?_ ?_ ?_ ?_ ?_ ?_ <;> ring

theorem det3_sq_of_rigid (m : Mat3) (h : mat3Mul (mat3T m) m = mat3Id) :
    det3 m * det3 m = 1 := by
  have h1 : det3 (mat3Mul (mat3T m) m) = det3 mat3Id := by rw [h]
  rw [det3_mul, det3_transpose, det3_id] at h1
  exact h1

theorem det3_ne_zero_of_rigid (m : Mat3) (h : mat3Mul (mat3T m) m = mat3Id) :
    det3 m ≠ 0 := by
  intro h0
  have := det3_sq_of_rigid m h
  rw [h0, mul_zero] at this
  exact zero_ne_one this

theorem smulM_id_one : smulM 1 mat3Id = mat3Id := by
  simp only [smulM, mat3Id]
  refine Mat3.ext ?_ ?_ ?_ ?_ ?_ ?_ ?_ ?_ ?_ <;> ring

theorem smulM_smulM (c d : ℚ) (a : Mat3) :
    smulM c (smulM d a) = smulM (c * d) a := by
  obtain ⟨a00, a01, a02, a10, a11, a12, a20, a21, a22⟩ := a
  simp only [smulM]
  refine Mat3.ext ?_ ?_ ?_ ?_ ?_ ?_ ?_ ?_ ?_ <;> ring

theorem mat3Mul_smulM (c : ℚ) (a b : Mat3) :
    mat3Mul a (smulM c b) = smulM c (mat3Mul a b) := by
  obtain ⟨a00, a01, a02, a10, a11, a12, a20, a21, a22⟩ := a
  obtain ⟨b00, b01, b02, b10, b11, b12, b20, b21, b22⟩ := b
  simp only [smulM, mat3Mul]
  refine Mat3.ext ?_ ?_ ?_ ?_ ?_ ?_ ?_ ?_ ?_ <;> ring

theorem mat3Inv_mul (m : Mat3) (h : det3 m ≠ 0) :
    mat3Mul (mat3Inv m) m = mat3Id := by
  rw [mat3Inv, smulM_mat3Mul, adj3_mul, smulM_smulM, inv_mul_cancel₀ h,
    smulM_id_one]

theorem mul_mat3Inv (m : Mat3) (h : det3 m ≠ 0) :
    mat3Mul m (mat3Inv m) = mat3Id := by
  rw [mat3Inv, mat3Mul_smulM, mul_adj3, smulM_smulM, inv_mul_cancel₀ h,
    smulM_id_one]

-- ===========================================================================
-- Frame-level lemmas
-- ===========================================================================

theorem frameApply_comp (f g : Frame) (v : Vec3) :
    frameApply (frameComp f g) v = frameApply f (frameApply g v) := by
  obtain ⟨fl, ft⟩ := f
  obtain ⟨gl, gt⟩ := g
  simp only [frameComp, frameApply, mulVec_mat3Mul]
  obtain ⟨a00, a01, a02, a10, a11, a12, a20, a21, a22⟩ := fl
  obtain ⟨b00, b01, b02, b10, b11, b12, b20, b21, b22⟩ := gl
  obtain ⟨tx, ty, tz⟩ := ft
  obtain ⟨sx, sy, sz⟩ := gt
  obtain ⟨vx, vy, vz⟩ := v
  simp only [mulVec, add3]
  refine Vec3.ext ?_ ?_ ?_ <;> ring

theorem frameApply_id (v : Vec3) : frameApply idFrame v = v := by
  obtain ⟨vx, vy, vz⟩ := v
  simp only [idFrame, frameApply, mat3Id, vzero3, mulVec, add3]
  refine Vec3.ext ?_ ?_ ?_ <;> ring

theorem frameComp_inv_left (f : Frame) (hf : IsRigid f) :
    frameComp (frameInv f) f = idFrame := by
  have hdet : det3 f.lin ≠ 0 := det3_ne_zero_of_rigid f.lin hf.1
  obtain ⟨fl, ft⟩ := f
  simp only [frameComp, frameInv, idFrame]
  refine Frame.ext ?_ ?_
  · exact mat3Inv_mul fl hdet
  · obtain ⟨tx, ty, tz⟩ := ft
    obtain ⟨i00, i01, i02, i10, i11, i12, i20, i21, i22⟩ := mat3Inv fl
    simp only [mulVec, add3, neg3, vzero3]
    refine Vec3.ext ?_ ?_ ?_ <;> ring

theorem mulVec_neg3 (a : Mat3) (v : Vec3) :
    mulVec a (neg3 v) = neg3 (mulVec a v) := by
  obtain ⟨a00, a01, a02, a10, a11, a12, a20, a21, a22⟩ := a
  obtain ⟨vx, vy, vz⟩ := v
  simp only [mulVec, neg3]
  refine Vec3.ext ?_ ?_ ?_ <;> ring

theorem add3_neg3_self (v : Vec3) : add3 (neg3 v) v = vzero3 := by
  obtain ⟨vx, vy, vz⟩ := v
  simp only [add3, neg3, vzero3]
  refine Vec3.ext ?_ ?_ ?_ <;> ring

theorem frameComp_inv_right (f : Frame) (hf : IsRigid f) :
    frameComp f (frameInv f) = idFrame := by
  have hdet : det3 f.lin ≠ 0 := det3_ne_zero_of_rigid f.lin hf.1
  have h1 : mat3Mul f.lin (mat3Inv f.lin) = mat3Id := mul_mat3Inv f.lin hdet
  obtain ⟨fl, ft⟩ := f
  simp only [frameComp, frameInv, idFrame] at *
  refine Frame.ext ?_ ?_
  · exact h1
  · rw [mulVec_neg3, ← mulVec_mat3Mul, h1, mulVec_id, add3_neg3_self]

theorem mat3Mul_assoc (a b c : Mat3) :
    mat3Mul (mat3Mul a b) c = mat3Mul a (mat3Mul b c) := by
  obtain ⟨a00, a01, a02, a10, a11, a12, a20, a21, a22⟩ := a
  obtain ⟨b00, b01, b02, b10, b11, b12, b20, b21, b22⟩ := b
  obtain ⟨c00, c01, c02, c10, c11, c12, c20, c21, c22⟩ := c
  simp only [mat3Mul]
  refine Mat3.ext ?_ ?_ ?_ ?_ ?_ ?_ ?_ ?_ ?_ <;> ring

theorem mat3Mul_id_left (a : Mat3) : mat3Mul mat3Id a = a := by
  obtain ⟨a00, a01, a02, a10, a11, a12, a20, a21, a22⟩ := a
  simp only [mat3Mul, mat3Id]
  refine Mat3.ext ?_ ?_ ?_ ?_ ?_ ?_ ?_ ?_ ?_ <;> ring

theorem mat3Mul_id_right (a : Mat3) : mat3Mul a mat3Id = a := by
  obtain ⟨a00, a01, a02, a10, a11, a12, a20, a21, a22⟩ := a
  simp only [mat3Mul, mat3Id]
  refine Mat3.ext ?_ ?_ ?_ ?_ ?_ ?_ ?_ ?_ ?_ <;> ring

theorem adj3_of_rigid (m : Mat3) (h : mat3Mul (mat3T m) m = mat3Id) :
    adj3 m = smulM (det3 m) (mat3T m) := by
  have step : mat3Mul (mat3T m) (mat3Mul m (adj3 m))
      = mat3Mul (mat3T m) (smulM (det3 m) mat3Id) := by rw [mul_adj3]
  rw [← mat3Mul_assoc, h, mat3Mul_id_left, mat3Mul_smulM, mat3Mul_id_right]
    at step
  exact step

theorem mat3Inv_of_rigid (m : Mat3) (h : mat3Mul (mat3T m) m = mat3Id) :
    mat3Inv m = mat3T m := by
  have hdet := det3_ne_zero_of_rigid m h
  rw [mat3Inv, adj3_of_rigid m h, smulM_smulM, inv_mul_cancel₀ hdet]
  obtain ⟨a00, a01, a02, a10, a11, a12, a20, a21, a22⟩ := m
  simp only [smulM, mat3T]
  refine Mat3.ext ?_ ?_ ?_ ?_ ?_ ?_ ?_ ?_ ?_ <;> ring

theorem frameInv_apply_apply (f : Frame) (hf : IsRigid f) (v : Vec3) :
    frameApply (frameInv f) (frameApply f v) = v := by
  rw [← frameApply_comp, frameComp_inv_left f hf, frameApply_id]

theorem apply_frameInv_apply (f : Frame) (hf : IsRigid f) (v : Vec3) :
    frameApply f (frameApply (frameInv f) v) = v := by
  rw [← frameApply_comp, frameComp_inv_right f hf, frameApply_id]

-- ===========================================================================
-- PortalMath.h: the portal-pair transform library
-- ===========================================================================

/-- Column 2 of the linear part: the portal's local +Z axis in world space
(the third basis column of the 4x4 transform). -/
def col2 (a : Mat3) : Vec3 := ⟨a.m02, a.m12, a.m22⟩

/-- A world-space plane `(n, d)` with equation `dot n x + d = 0`. -/
@[ext]
structure Plane where
  n : Vec3
  d : ℚ
deriving DecidableEq, Repr

def planeEval (p : Plane) (v : Vec3) : ℚ := dot3 p.n v + p.d

/-- PortalMath::GetSignedDistanceToPortal (PortalMath.h lines 98-105):
`portalNormal = -vec3(portalMatrix[2]); return dot(point - portalPosition,
portalNormal)`.  Note the negation of the third basis column and the absence
of normalization. -/
def GetSignedDistanceToPortal (point : Vec3) (portalMatrix : Frame) : ℚ :=
  dot3 (sub3 point portalMatrix.trans) (neg3 (col2 portalMatrix.lin))

/-- PortalMath::GetPortalPlane (PortalMath.h lines 176-182): the world-space
plane with normal `-vec3(portalMatrix[2])` and `d = -dot(normal, position)`. -/
def GetPortalPlane (portalMatrix : Frame) : Plane :=
  ⟨neg3 (col2 portalMatrix.lin),
   -(dot3 (neg3 (col2 portalMatrix.lin)) portalMatrix.trans)⟩

/-- The 180-degree rotation about the Y axis used throughout PortalMath
(`glm::rotate(mat4(1), pi, vec3(0,1,0))`, exact-arithmetic form). -/
def rot180Y : Mat3 := ⟨-1, 0, 0, 0, 1, 0, 0, 0, -1⟩

def rot180F : Frame := ⟨rot180Y, vzero3⟩

/-- PortalMath::ComputePortalTransform (PortalMath.h lines 164-170):
`targetPortalMatrix * rotate180 * inverse(sourcePortalMatrix)`. -/
def ComputePortalTransform (sourcePortalMatrix targetPortalMatrix : Frame) :
    Frame :=
  frameComp targetPortalMatrix (frameComp rot180F (frameInv sourcePortalMatrix))

/-- PortalMath::TeleportPosition (PortalMath.h lines 110-119): apply
`targetPortalMatrix * rotate180 * inverse(sourcePortalMatrix)` to the point
with homogeneous weight 1. -/
def TeleportPosition (worldPosition : Vec3)
    (sourcePortalMatrix targetPortalMatrix : Frame) : Vec3 :=
  frameApply
    (frameComp targetPortalMatrix (frameComp rot180F (frameInv sourcePortalMatrix)))
    worldPosition

/-- PortalMath::CalculatePortalViewMatrix (PortalMath.h lines 36-52):
`inverse(targetPortalMatrix * rotate180 * inverse(sourcePortalMatrix) *
inverse(playerViewMatrix))`. -/
def CalculatePortalViewMatrix (playerViewMatrix sourcePortalMatrix
    targetPortalMatrix : Frame) : Frame :=
  frameInv (frameComp targetPortalMatrix (frameComp rot180F
    (frameComp (frameInv sourcePortalMatrix) (frameInv playerViewMatrix))))

/-- The signed distance exactly as claim C1 words it: the dot product of
`point - portalPosition` with the portal's local +Z axis (third basis
column).  The spec asks for the normalized column; a rigid frame's basis
column is already a unit vector, so the normalization is dropped here and
the theorems that compare this with the code carry a rigidity hypothesis. -/
def specSignedDistance (point : Vec3) (portalMatrix : Frame) : ℚ :=
  dot3 (sub3 point portalMatrix.trans) (col2 portalMatrix.lin)

theorem frameInv_apply_z_of_rigid (f : Frame) (hf : IsRigid f) (p : Vec3) :
    (frameApply (frameInv f) p).z = specSignedDistance p f := by
  have hinv : mat3Inv f.lin = mat3T f.lin := mat3Inv_of_rigid f.lin hf.1
  obtain ⟨fl, ft⟩ := f
  simp only [frameInv, frameApply] at *
  rw [hinv]
  obtain ⟨a00, a01, a02, a10, a11, a12, a20, a21, a22⟩ := fl
  obtain ⟨tx, ty, tz⟩ := ft
  obtain ⟨px, py, pz⟩ := p
  simp only [mat3T, mulVec, add3, neg3, specSignedDistance, sub3, dot3, col2]
  ring

theorem getSignedDistance_eq_neg_spec (point : Vec3) (portal : Frame) :
    GetSignedDistanceToPortal point portal = -(specSignedDistance point portal) := by
  obtain ⟨fl, ft⟩ := portal
  obtain ⟨a00, a01, a02, a10, a11, a12, a20, a21, a22⟩ := fl
  obtain ⟨tx, ty, tz⟩ := ft
  obtain ⟨px, py, pz⟩ := point
  simp only [GetSignedDistanceToPortal, specSignedDistance, dot3, sub3, neg3,
    col2]
  ring

theorem planeEval_getPortalPlane (point : Vec3) (portal : Frame) :
    planeEval (GetPortalPlane portal) point
      = GetSignedDistanceToPortal point portal := by
  obtain ⟨fl, ft⟩ := portal
  obtain ⟨a00, a01, a02, a10, a11, a12, a20, a21, a22⟩ := fl
  obtain ⟨tx, ty, tz⟩ := ft
  obtain ⟨px, py, pz⟩ := point
  simp only [planeEval, GetPortalPlane, GetSignedDistanceToPortal, dot3, sub3,
    neg3, col2]
  ring

/-- C1 (amended): for a rigid portal frame, `GetSignedDistanceToPortal` is the
NEGATION of the claimed formula `dot(point - portalPosition, portalNormal)`
with `portalNormal` the local +Z basis column (the code uses the negated and
unnormalized third column); `GetPortalPlane` is consistent with it
(`n.x + d` recovers the same signed distance), and the result is positive
exactly when the point lies BEHIND the portal plane, i.e. on the local -Z
side (negative local z coordinate), not on the front (+Z, source) side. -/
theorem signedDistance_negated_column_spec (point : Vec3) (portal : Frame)
    (h : IsRigid portal) :
    GetSignedDistanceToPortal point portal = -(specSignedDistance point portal)
    ∧ planeEval (GetPortalPlane portal) point
        = GetSignedDistanceToPortal point portal
    ∧ (0 < GetSignedDistanceToPortal point portal
        ↔ (frameApply (frameInv portal) point).z < 0) := by
  refine ⟨getSignedDistance_eq_neg_spec point portal,
    planeEval_getPortalPlane point portal, ?_⟩
  rw [frameInv_apply_z_of_rigid portal h point,
    getSignedDistance_eq_neg_spec point portal]
  exact neg_pos

/-- C1 as stated is false on the code: at the identity portal frame and the
point `(0,0,1)` (which lies on the front, +Z, source side), the code returns
`-1` while the claimed formula `dot(point - portalPosition, portalNormal)`
gives `+1`, so the code result is negative on the front side. -/
theorem signedDistance_sign_counterexample :
    GetSignedDistanceToPortal ⟨0, 0, 1⟩ idFrame = -1
    ∧ specSignedDistance ⟨0, 0, 1⟩ idFrame = 1
    ∧ GetSignedDistanceToPortal ⟨0, 0, 1⟩ idFrame
        ≠ specSignedDistance ⟨0, 0, 1⟩ idFrame := by
  norm_num [GetSignedDistanceToPortal, specSignedDistance, idFrame, mat3Id,
    vzero3, col2, neg3, sub3, dot3]

theorem isRigid_idFrame : IsRigid idFrame := by
  constructor <;>
    · simp only [IsRigid, idFrame, mat3Id, mat3T, mat3Mul]
      refine Mat3.ext ?_ ?_ ?_ ?_ ?_ ?_ ?_ ?_ ?_ <;> norm_num

/-- Witness for `signedDistance_negated_column_spec` at the identity portal
frame and the point `(1,2,3)`. -/
theorem signedDistance_negated_column_spec_witness :
    IsRigid idFrame
    ∧ (GetSignedDistanceToPortal ⟨1, 2, 3⟩ idFrame
          = -(specSignedDistance ⟨1, 2, 3⟩ idFrame)
        ∧ planeEval (GetPortalPlane idFrame) ⟨1, 2, 3⟩
            = GetSignedDistanceToPortal ⟨1, 2, 3⟩ idFrame
        ∧ (0 < GetSignedDistanceToPortal ⟨1, 2, 3⟩ idFrame
            ↔ (frameApply (frameInv idFrame) ⟨1, 2, 3⟩).z < 0)) :=
  ⟨isRigid_idFrame,
    signedDistance_negated_column_spec ⟨1, 2, 3⟩ idFrame isRigid_idFrame⟩

theorem rot180_apply_apply (v : Vec3) :
    frameApply rot180F (frameApply rot180F v) = v := by
  obtain ⟨vx, vy, vz⟩ := v
  simp only [rot180F, rot180Y, frameApply, mulVec, add3, vzero3]
  refine Vec3.ext ?_ ?_ ?_ <;> ring

/-- C2: the round trip.  For rigid frames `A`, `B` and any point `p`,
teleporting `p` from `A` to `B` and then from `B` back to `A` returns `p`
exactly: the pair transform `dst * Rotate180Y * inverse(src)` composed with
its arguments swapped is the identity (Rotate180Y is an involution and the
rigid frames cancel against their inverses). -/
theorem teleportPosition_roundTrip (a b : Frame) (p : Vec3)
    (ha : IsRigid a) (hb : IsRigid b) :
    TeleportPosition (TeleportPosition p a b) b a = p := by
  simp only [TeleportPosition, frameApply_comp]
  rw [frameInv_apply_apply b hb, rot180_apply_apply, apply_frameInv_apply a ha]

/-- A concrete rigid frame: identity rotation, translation (2,0,5). -/
def frameA0 : Frame := ⟨mat3Id, ⟨2, 0, 5⟩⟩

/-- A concrete rigid frame: 90-degree rotation about Y, translation (1,2,3). -/
def frameB0 : Frame := ⟨⟨0, 0, 1, 0, 1, 0, -1, 0, 0⟩, ⟨1, 2, 3⟩⟩

theorem isRigid_frameA0 : IsRigid frameA0 := by
  constructor <;>
    · simp only [IsRigid, frameA0, mat3Id, mat3T, mat3Mul]
      refine Mat3.ext ?_ ?_ ?_ ?_ ?_ ?_ ?_ ?_ ?_ <;> norm_num

theorem isRigid_frameB0 : IsRigid frameB0 := by
  constructor <;>
    · simp only [IsRigid, frameB0, mat3Id, mat3T, mat3Mul]
      refine Mat3.ext ?_ ?_ ?_ ?_ ?_ ?_ ?_ ?_ ?_ <;> norm_num

/-- Witness for `teleportPosition_roundTrip` on the concrete rigid frames
`frameA0`, `frameB0` and the point `(4,5,6)`. -/
theorem teleportPosition_roundTrip_witness :
    IsRigid frameA0 ∧ IsRigid frameB0
    ∧ TeleportPosition (TeleportPosition ⟨4, 5, 6⟩ frameA0 frameB0)
        frameB0 frameA0 = ⟨4, 5, 6⟩ :=
  ⟨isRigid_frameA0, isRigid_frameB0,
    teleportPosition_roundTrip frameA0 frameB0 ⟨4, 5, 6⟩ isRigid_frameA0
      isRigid_frameB0⟩

-- ===========================================================================
-- PortalTeleporter.h: crossing detection, cooldown, time helpers
-- ===========================================================================

/-- The teleport cooldown constant (PortalTeleporter.h line 43): 0.3 s. -/
def TELEPORT_COOLDOWN : ℚ := 3 / 10

/-- PortalTeleporter::TeleportableEntity (the fields the crossing logic
reads and writes). -/
structure TeleportableEntity where
  position : Vec3
  previousPosition : Vec3
  velocity : Vec3
  lastTeleportTime : ℚ
deriving DecidableEq, Repr

/-- PortalTeleporter::IsPointInPortalBounds (PortalTeleporter.h lines 22-26):
transform the world point by `inverse(portalMatrix)` and test
`|x| <= halfWidth && |y| <= halfHeight`. -/
def IsPointInPortalBounds (worldPoint : Vec3) (portalMatrix : Frame)
    (halfWidth halfHeight : ℚ) : Prop :=
  |(frameApply (frameInv portalMatrix) worldPoint).x| ≤ halfWidth
  ∧ |(frameApply (frameInv portalMatrix) worldPoint).y| ≤ halfHeight

instance (worldPoint : Vec3) (portalMatrix : Frame) (halfWidth halfHeight : ℚ) :
    Decidable (IsPointInPortalBounds worldPoint portalMatrix halfWidth halfHeight) := by
  unfold IsPointInPortalBounds; infer_instance

/-- PortalTeleporter::ShouldTeleport (PortalTeleporter.h lines 41-67).
Returns the boolean result together with the (possibly updated) entity,
since a confirmed crossing stamps `lastTeleportTime := currentTime`.
The cooldown gate fires only when `currentTime > 0` (the default-argument
sentinel in the source); the crossing test is
`(prevDist > 0 && currDist <= 0) || (prevDist < 0 && currDist >= 0)`;
the crossing point is `mix(previousPosition, position,
prevDist / (prevDist - currDist))`. -/
def ShouldTeleport (entity : TeleportableEntity) (portal : Frame)
    (halfWidth halfHeight currentTime : ℚ) : Bool × TeleportableEntity :=
  if 0 < currentTime ∧ currentTime - entity.lastTeleportTime < TELEPORT_COOLDOWN
  then (false, entity)
  else
    let prevDist := GetSignedDistanceToPortal entity.previousPosition portal
    let currDist := GetSignedDistanceToPortal entity.position portal
    if (0 < prevDist ∧ currDist ≤ 0) ∨ (prevDist < 0 ∧ 0 ≤ currDist) then
      let t := prevDist / (prevDist - currDist)
      let crossPoint := mix3 entity.previousPosition entity.position t
      if IsPointInPortalBounds crossPoint portal halfWidth halfHeight then
        (true, { entity with lastTeleportTime := currentTime })
      else (false, entity)
    else (false, entity)

/-- C3 (amended): with no active cooldown, `ShouldTeleport` returns true
exactly when the signed distances satisfy the code's crossing test — the
PREVIOUS distance strictly nonzero and the current distance (weakly) on the
other side — and the interpolated crossing point
`mix(previousPosition, position, prevDist / (prevDist - currDist))` lies
within the portal rectangle in the portal's local frame.  An entity whose
previous distance is exactly 0 never counts, not only the case where both
distances are 0. -/
theorem shouldTeleport_iff (e : TeleportableEntity) (portal : Frame)
    (halfWidth halfHeight currentTime : ℚ)
    (hcool : ¬(0 < currentTime
      ∧ currentTime - e.lastTeleportTime < TELEPORT_COOLDOWN)) :
    (ShouldTeleport e portal halfWidth halfHeight currentTime).1 = true
      ↔ (((0 < GetSignedDistanceToPortal e.previousPosition portal
            ∧ GetSignedDistanceToPortal e.position portal ≤ 0)
          ∨ (GetSignedDistanceToPortal e.previousPosition portal < 0
            ∧ 0 ≤ GetSignedDistanceToPortal e.position portal))
        ∧ IsPointInPortalBounds
            (mix3 e.previousPosition e.position
              (GetSignedDistanceToPortal e.previousPosition portal
                / (GetSignedDistanceToPortal e.previousPosition portal
                  - GetSignedDistanceToPortal e.position portal)))
            portal halfWidth halfHeight) := by
  simp only [ShouldTeleport, if_neg hcool]
  by_cases hcross : (0 < GetSignedDistanceToPortal e.previousPosition portal
      ∧ GetSignedDistanceToPortal e.position portal ≤ 0)
    ∨ (GetSignedDistanceToPortal e.previousPosition portal < 0
      ∧ 0 ≤ GetSignedDistanceToPortal e.position portal)
  · rw [if_pos hcross]
    by_cases hb : IsPointInPortalBounds
        (mix3 e.previousPosition e.position
          (GetSignedDistanceToPortal e.previousPosition portal
            / (GetSignedDistanceToPortal e.previousPosition portal
              - GetSignedDistanceToPortal e.position portal)))
        portal halfWidth halfHeight
    · rw [if_pos hb]
      simp [hcross, hb]
    · rw [if_neg hb]
      simp [hcross, hb]
  · rw [if_neg hcross]
    simp [hcross]

/-- The crossing condition exactly as the claim words it: the signed
distances flip sign in either direction, with the spec's own edge policy
that a strict sign comparison is required on at least one side, so only the
case of both distances exactly 0 is excluded. -/
def specSignFlip (prevDist currDist : ℚ) : Prop :=
  ((0 ≤ prevDist ∧ currDist ≤ 0) ∨ (prevDist ≤ 0 ∧ 0 ≤ currDist))
  ∧ ¬(prevDist = 0 ∧ currDist = 0)

/-- An entity whose previous position lies exactly on the portal plane and
whose current position is behind it (positive code distance). -/
def entityOnPlane : TeleportableEntity :=
  ⟨⟨0, 0, 1⟩, ⟨0, 0, 0⟩, vzero3, 0⟩

/-- C3 as stated is false on the code: at the identity portal (half extents
1 x 1, `currentTime = 0`, so no cooldown), an entity moving from exactly on
the plane (previous distance 0) to strictly off it satisfies the claim's
sign-flip condition (only the 0-on-both-frames case is carved out) and the
crossing point (0,0,0) is inside the rectangle, yet `ShouldTeleport` returns
false: the code requires the PREVIOUS distance to be strictly nonzero. -/
theorem shouldTeleport_onPlane_counterexample :
    (ShouldTeleport entityOnPlane idFrame 1 1 0).1 = false
    ∧ specSignFlip
        (GetSignedDistanceToPortal entityOnPlane.previousPosition idFrame)
        (GetSignedDistanceToPortal entityOnPlane.position idFrame)
    ∧ IsPointInPortalBounds
        (mix3 entityOnPlane.previousPosition entityOnPlane.position
          (GetSignedDistanceToPortal entityOnPlane.previousPosition idFrame
            / (GetSignedDistanceToPortal entityOnPlane.previousPosition idFrame
              - GetSignedDistanceToPortal entityOnPlane.position idFrame)))
        idFrame 1 1
    ∧ ¬(0 < (0 : ℚ)
        ∧ (0 : ℚ) - entityOnPlane.lastTeleportTime < TELEPORT_COOLDOWN) := by
  norm_num [ShouldTeleport, specSignFlip, IsPointInPortalBounds,
    GetSignedDistanceToPortal, entityOnPlane, idFrame, mat3Id, vzero3,
    TELEPORT_COOLDOWN, mix3, frameApply, frameInv, mat3Inv, det3, adj3,
    smulM, mulVec, add3, sub3, neg3, smul3, dot3, col2]

/-- An entity genuinely crossing the identity portal from the positive code
side (previous distance +1) to the negative side (current distance -1). -/
def entityCross : TeleportableEntity :=
  ⟨⟨0, 0, 1⟩, ⟨0, 0, -1⟩, vzero3, 0⟩

/-- Witness for `shouldTeleport_iff`: the genuine crossing `entityCross`
through the identity portal with `currentTime = 0` (cooldown gate closed). -/
theorem shouldTeleport_iff_witness :
    ¬(0 < (0 : ℚ)
      ∧ (0 : ℚ) - entityCross.lastTeleportTime < TELEPORT_COOLDOWN)
    ∧ ((ShouldTeleport entityCross idFrame 1 1 0).1 = true
      ↔ (((0 < GetSignedDistanceToPortal entityCross.previousPosition idFrame
            ∧ GetSignedDistanceToPortal entityCross.position idFrame ≤ 0)
          ∨ (GetSignedDistanceToPortal entityCross.previousPosition idFrame < 0
            ∧ 0 ≤ GetSignedDistanceToPortal entityCross.position idFrame))
        ∧ IsPointInPortalBounds
            (mix3 entityCross.previousPosition entityCross.position
              (GetSignedDistanceToPortal entityCross.previousPosition idFrame
                / (GetSignedDistanceToPortal entityCross.previousPosition idFrame
                  - GetSignedDistanceToPortal entityCross.position idFrame)))
            idFrame 1 1)) :=
  ⟨by norm_num [entityCross, TELEPORT_COOLDOWN],
    shouldTeleport_iff entityCross idFrame 1 1 0
      (by norm_num [entityCross, TELEPORT_COOLDOWN])⟩

/-- C8 (amended): for any entity, portal and STRICTLY POSITIVE currentTime,
if the cooldown has not elapsed (`currentTime - lastTeleportTime < 0.3`)
then `ShouldTeleport` returns false.  (For `currentTime <= 0` the gate is
bypassed; with positive monotonic timestamps the second of two genuine
crossings 0.1 s apart is therefore suppressed.) -/
theorem shouldTeleport_cooldown_suppresses (e : TeleportableEntity)
    (portal : Frame) (halfWidth halfHeight currentTime : ℚ)
    (ht : 0 < currentTime)
    (hc : currentTime - e.lastTeleportTime < TELEPORT_COOLDOWN) :
    (ShouldTeleport e portal halfWidth halfHeight currentTime).1 = false := by
  simp only [ShouldTeleport, if_pos (And.intro ht hc)]

/-- C8 as stated is false on the code: at `currentTime = 0` the cooldown has
not elapsed (`0 - lastTeleportTime = 0 < 0.3`), yet a genuine crossing is
honored and `ShouldTeleport` returns true — the gate only fires when
`currentTime > 0`. -/
theorem shouldTeleport_cooldown_counterexample :
    (0 : ℚ) - entityCross.lastTeleportTime < TELEPORT_COOLDOWN
    ∧ (ShouldTeleport entityCross idFrame 1 1 0).1 = true := by
  norm_num [ShouldTeleport, IsPointInPortalBounds, GetSignedDistanceToPortal,
    entityCross, idFrame, mat3Id, vzero3, TELEPORT_COOLDOWN, mix3, frameApply,
    frameInv, mat3Inv, det3, adj3, smulM, mulVec, add3, sub3, neg3, smul3,
    dot3, col2]

/-- Witness for `shouldTeleport_cooldown_suppresses`: a first genuine
crossing honored at `t = 1` stamps the entity, and the second call 0.1 s
later returns false. -/
theorem shouldTeleport_cooldown_suppresses_witness :
    (ShouldTeleport entityCross idFrame 1 1 1).1 = true
    ∧ (0 : ℚ) < 11 / 10
    ∧ (11 / 10 : ℚ)
        - (ShouldTeleport entityCross idFrame 1 1 1).2.lastTeleportTime
        < TELEPORT_COOLDOWN
    ∧ (ShouldTeleport (ShouldTeleport entityCross idFrame 1 1 1).2 idFrame 1 1
        (11 / 10)).1 = false :=
  ⟨by norm_num [ShouldTeleport, IsPointInPortalBounds,
      GetSignedDistanceToPortal, entityCross, idFrame, mat3Id, vzero3,
      TELEPORT_COOLDOWN, mix3, frameApply, frameInv, mat3Inv, det3, adj3,
      smulM, mulVec, add3, sub3, neg3, smul3, dot3, col2],
    by norm_num,
    by norm_num [ShouldTeleport, IsPointInPortalBounds,
      GetSignedDistanceToPortal, entityCross, idFrame, mat3Id, vzero3,
      TELEPORT_COOLDOWN, mix3, frameApply, frameInv, mat3Inv, det3, adj3,
      smulM, mulVec, add3, sub3, neg3, smul3, dot3, col2],
    shouldTeleport_cooldown_suppresses _ idFrame 1 1 (11 / 10) (by norm_num)
      (by norm_num [ShouldTeleport, IsPointInPortalBounds,
        GetSignedDistanceToPortal, entityCross, idFrame, mat3Id, vzero3,
        TELEPORT_COOLDOWN, mix3, frameApply, frameInv, mat3Inv, det3, adj3,
        smulM, mulVec, add3, sub3, neg3, smul3, dot3, col2])⟩

-- ===========================================================================
-- PortalTeleporter.h: the two time helpers with distinct function-local
-- statics
-- ===========================================================================

/-- The states of the two function-local `static float s_time` variables:
`GetCurrentTime` owns one (PortalTeleporter.h lines 29-32) and
`SetCurrentTime` owns a DIFFERENT one (lines 34-37); they are distinct
objects in C++, modelled as two separate fields, each zero-initialised. -/
structure TimeHelperState where
  getStatic : ℚ
  setStatic : ℚ
deriving DecidableEq, Repr

/-- Both statics zero-initialised at program start. -/
def initTimeHelper : TimeHelperState := ⟨0, 0⟩

/-- PortalTeleporter::GetCurrentTime: returns its own static, which nothing
ever writes. -/
def GetCurrentTime (s : TimeHelperState) : ℚ := s.getStatic

/-- PortalTeleporter::SetCurrentTime: writes its own static only. -/
def SetCurrentTime (s : TimeHelperState) (time : ℚ) : TimeHelperState :=
  { s with setStatic := time }

/-- C10: the time helpers do not communicate.  After any sequence of
`SetCurrentTime` calls with arbitrary values, `GetCurrentTime` still returns
0, because each function owns a distinct function-local static. -/
theorem getCurrentTime_always_zero (ts : List ℚ) :
    GetCurrentTime (List.foldl SetCurrentTime initTimeHelper ts) = 0 := by
  have h : ∀ (s : TimeHelperState) (rest : List ℚ),
      GetCurrentTime (List.foldl SetCurrentTime s rest) = GetCurrentTime s := by
    intro s rest
    induction rest generalizing s with
    | nil => rfl
    | cons a l ih =>
      rw [List.foldl_cons, ih]
      rfl
  rw [h]
  rfl

-- ===========================================================================
-- main_example.cpp: viewing-side resolution and the virtual view (C6)
-- ===========================================================================

/-- main_example.cpp GetPortalViewingSide (lines 833-838): the sign of
`dot(cameraPos - portalPos, portalNormal)` with
`portalNormal = vec3(transform * vec4(0,0,1,0))` (unnormalized);
1 = front face, -1 = back face. -/
def GetPortalViewingSide (portal : Frame) (cameraPos : Vec3) : Int :=
  if 0 < dot3 (sub3 cameraPos portal.trans) (mulVec portal.lin ⟨0, 0, 1⟩)
  then 1 else -1

/-- main_example.cpp RenderPortalContent lines 922-927: the effective source
frame — when viewed from the back (`viewingSide < 0`), the portal transform
times an extra 180-degree Y rotation. -/
def effectiveSrcTransform (portal : Frame) (viewingSide : Int) : Frame :=
  if viewingSide < 0 then frameComp portal rot180F else portal

/-- main_example.cpp RenderPortalContent lines 980-981: the virtual view
matrix the renderer actually computes.  The source computes
`effectiveSrcTransform` (lines 923-927) but then passes `portal->transform`
— not the effective frame — to `CalculatePortalViewMatrix`, so the
`viewingSide` argument has no effect on the result. -/
def renderContentVirtualView (portal destPortal viewMatrix : Frame)
    (_viewingSide : Int) : Frame :=
  CalculatePortalViewMatrix viewMatrix portal destPortal

/-- main_example.cpp RenderPortalContent line 984: the pair transform the
renderer actually computes, again from `portal->transform`, not the
effective source frame. -/
def renderContentPairTransform (portal destPortal : Frame)
    (_viewingSide : Int) : Frame :=
  ComputePortalTransform portal destPortal

/-- Modelled from the spec (section 4.4, viewing-side resolution): when the
camera observes the portal from its back face, the extra 180-degree rotation
is applied to the effective source frame BEFORE computing the virtual-camera
view. -/
def specVirtualView (portal destPortal viewMatrix : Frame)
    (viewingSide : Int) : Frame :=
  CalculatePortalViewMatrix viewMatrix
    (effectiveSrcTransform portal viewingSide) destPortal

/-- Modelled from the spec (section 4.4): the pair transform computed from
the effective (possibly back-face-rotated) source frame. -/
def specPairTransform (portal destPortal : Frame) (viewingSide : Int) : Frame :=
  ComputePortalTransform (effectiveSrcTransform portal viewingSide) destPortal

/-- The destination portal of the concrete back-face scenario: identity
rotation, translation (10,0,0). -/
def frameDest0 : Frame := ⟨mat3Id, ⟨10, 0, 0⟩⟩

/-- The view matrix of a camera standing at (0,0,-1) with identity
orientation (the inverse of the camera's world frame). -/
def viewBack0 : Frame := ⟨mat3Id, ⟨0, 0, 1⟩⟩

/-- C6: the back-face flip is computed but never applied.  At the identity
portal observed from (0,0,-1) the viewing side resolves to -1 (back face),
yet the virtual view and pair transform the renderer computes equal the
unrotated-source results and differ from the spec's rotated-source results:
`effectiveSrcTransform` is a dead variable in RenderPortalContent
(main_example.cpp lines 923-927 compute it, lines 980-984 use
`portal->transform` instead). -/
theorem backfaceFlip_dead_variable :
    GetPortalViewingSide idFrame ⟨0, 0, -1⟩ = -1
    ∧ renderContentVirtualView idFrame frameDest0 viewBack0 (-1)
        = CalculatePortalViewMatrix viewBack0 idFrame frameDest0
    ∧ renderContentVirtualView idFrame frameDest0 viewBack0 (-1)
        ≠ specVirtualView idFrame frameDest0 viewBack0 (-1)
    ∧ renderContentPairTransform idFrame frameDest0 (-1)
        ≠ specPairTransform idFrame frameDest0 (-1) := by
  refine ⟨?_, rfl, ?_, ?_⟩
  · norm_num [GetPortalViewingSide, idFrame, mat3Id, vzero3, dot3, sub3,
      mulVec]
  · norm_num [renderContentVirtualView, specVirtualView,
      CalculatePortalViewMatrix, effectiveSrcTransform, frameComp, frameInv,
      mat3Inv, det3, adj3, smulM, mat3Mul, mulVec, add3, neg3, idFrame,
      frameDest0, viewBack0, rot180F, rot180Y, mat3Id, vzero3]
  · norm_num [renderContentPairTransform, specPairTransform,
      ComputePortalTransform, effectiveSrcTransform, frameComp, frameInv,
      mat3Inv, det3, adj3, smulM, mat3Mul, mulVec, add3, neg3, idFrame,
      frameDest0, rot180F, rot180Y, mat3Id, vzero3]

-- ===========================================================================
-- main_example.cpp RenderPortalContent lines 1014-1079: projection-tier
-- selection (oblique clipping / distance fallback / branch abort) (C9)
-- ===========================================================================

/-- The outcome of the projection selection for one portal at one level. -/
inductive ProjectionChoice where
  | oblique (clipPlane : Plane) : ProjectionChoice
  | fallback (nearPlane : ℚ) : ProjectionChoice
  | abortBehind : ProjectionChoice
  | abortNear : ProjectionChoice
deriving DecidableEq, Repr

/-- main_example.cpp lines 1016-1018: flip the view-space clip normal when
its z component is positive. -/
def flippedClipNormal (clipNormalView : Vec3) : Vec3 :=
  if 0 < clipNormalView.z then neg3 clipNormalView else clipNormalView

/-- main_example.cpp RenderPortalContent lines 1014-1079, as a function of
the view-space clip normal (already normalized upstream; normalization does
not affect any of the comparisons' signs) and the destination portal's
position in the virtual camera's view space:
  - `clipD = -dot(n, clipPosView)` after the flip; `clipPlane.w` gets an
    extra `-0.01` offset;
  - if `clipD > -0.01` (destination plane behind or within 0.01 of the
    virtual camera): skip the branch (lines 1043-1053);
  - else if `|n.z| >= 0.05`: oblique projection (lines 1034-1037, 1056-1058);
  - else if `portalDist = -clipPosView.z < 0.1`: skip (lines 1064-1068);
  - else: plain perspective with near plane
    `max(0.01, portalDist * 0.9)` (lines 1062-1078). -/
def selectPortalProjection (clipNormalView clipPosView : Vec3) :
    ProjectionChoice :=
  let n := flippedClipNormal clipNormalView
  let clipD := -(dot3 n clipPosView)
  if -(1 / 100) < clipD then ProjectionChoice.abortBehind
  else if 1 / 20 ≤ |n.z| then ProjectionChoice.oblique ⟨n, clipD - 1 / 100⟩
  else if -(clipPosView.z) < 1 / 10 then ProjectionChoice.abortNear
  else ProjectionChoice.fallback (max (1 / 100) (-(clipPosView.z) * (9 / 10)))

theorem abs_flippedClipNormal_z (v : Vec3) :
    |(flippedClipNormal v).z| = |v.z| := by
  unfold flippedClipNormal
  split
  · simp [neg3, abs_neg]
  · rfl

/-- C9: tier selection.  (1) Whenever the view-space clip normal's forward
(z) component has magnitude below the 0.05 threshold, `ObliqueProjection` is
never applied.  (2) Whenever the destination plane is behind or degenerately
coincident with the virtual camera (`dot(n, clipPosView) <= 0` for the
flipped normal `n`), the branch is aborted with no projection chosen.
(3) When the forward component is below the threshold and the portal is
genuinely in front (`dot(n, clipPosView) >= 0.01` and distance along view
`>= 0.1`), the distance-based perspective fallback is selected with near
plane `0.9 * portalDist` — the portal's distance scaled by a safety factor
below 1. -/
theorem projectionSelection_tiers (clipNormalView clipPosView : Vec3) :
    (|clipNormalView.z| < 1 / 20 →
      ∀ pl, selectPortalProjection clipNormalView clipPosView
        ≠ ProjectionChoice.oblique pl)
    ∧ (dot3 (flippedClipNormal clipNormalView) clipPosView ≤ 0 →
        selectPortalProjection clipNormalView clipPosView
          = ProjectionChoice.abortBehind)
    ∧ (|clipNormalView.z| < 1 / 20 →
        1 / 100 ≤ dot3 (flippedClipNormal clipNormalView) clipPosView →
        1 / 10 ≤ -(clipPosView.z) →
        selectPortalProjection clipNormalView clipPosView
          = ProjectionChoice.fallback (-(clipPosView.z) * (9 / 10))) := by
  refine ⟨?_, ?_, ?_⟩
  · intro h pl
    have hc2 : ¬(1 / 20 ≤ |(flippedClipNormal clipNormalView).z|) := by
      rw [abs_flippedClipNormal_z]
      exact not_le.mpr h
    simp only [selectPortalProjection]
    by_cases h1 : -(1 / 100 : ℚ)
        < -(dot3 (flippedClipNormal clipNormalView) clipPosView)
    · rw [if_pos h1]
      simp
    · rw [if_neg h1, if_neg hc2]
      split <;> simp
  · intro h
    have h1 : -(1 / 100 : ℚ)
        < -(dot3 (flippedClipNormal clipNormalView) clipPosView) := by
      linarith
    simp only [selectPortalProjection]
    rw [if_pos h1]
  · intro h1 h2 h3
    have hc1 : ¬(-(1 / 100 : ℚ)
        < -(dot3 (flippedClipNormal clipNormalView) clipPosView)) := by
      linarith
    have hc2 : ¬(1 / 20 ≤ |(flippedClipNormal clipNormalView).z|) := by
      rw [abs_flippedClipNormal_z]
      exact not_le.mpr h1
    have hc3 : ¬(-(clipPosView.z) < 1 / 10) := not_lt.mpr h3
    have hmax : max (1 / 100 : ℚ) (-(clipPosView.z) * (9 / 10))
        = -(clipPosView.z) * (9 / 10) := by
      apply max_eq_right
      linarith
    simp only [selectPortalProjection]
    rw [if_neg hc1, if_neg hc2, if_neg hc3, hmax]

/-- Witness for `projectionSelection_tiers`: with the near-parallel clip
normal `(1, 0, 1/100)` and the destination 5 units ahead the fallback tier
fires with near plane `4.5`; with the plane behind the camera
(`clipPosView = (0,0,1)`) the branch aborts. -/
theorem projectionSelection_tiers_witness :
    selectPortalProjection ⟨1, 0, 1 / 100⟩ ⟨0, 0, -5⟩
        = ProjectionChoice.fallback (-((-5 : ℚ)) * (9 / 10))
    ∧ selectPortalProjection ⟨0, 0, 1⟩ ⟨0, 0, 1⟩
        = ProjectionChoice.abortBehind :=
  ⟨(projectionSelection_tiers ⟨1, 0, 1 / 100⟩ ⟨0, 0, -5⟩).2.2
      (by rw [show |(1 : ℚ) / 100| = 1 / 100 from abs_of_pos (by norm_num)]
          norm_num)
      (by norm_num [flippedClipNormal, neg3, dot3])
      (by norm_num),
    (projectionSelection_tiers ⟨0, 0, 1⟩ ⟨0, 0, 1⟩).2.1
      (by norm_num [flippedClipNormal, neg3, dot3])⟩

-- ===========================================================================
-- The recursive portal walk as a pass trace (C4, C5, C7)
-- ===========================================================================

/-- The fixed maximum recursion depth (PortalRenderer.h line 83 and
main_example.cpp line 788). -/
def MAX_PORTAL_RECURSION : ℕ := 4

/-- The portal registry for one frame: portals are the indices
`0 .. numPortals - 1` of the `g_Portals` vector (distinct objects), with
their link relation and activation flags. -/
structure PortalConfig where
  numPortals : ℕ
  linked : ℕ → Option ℕ
  isActive : ℕ → Bool

/-- One graphics pass (or recursion event) of a portal traversal, tagged
with the portal index and recursion level it belongs to:
`enter` is the entry into `RenderPortalContent` / `RenderPortalRecursive`
for that portal at that level, the rest are the render passes the traversal
issues. -/
inductive Pass where
  | enter (portal level : ℕ) : Pass
  | mark (portal level : ℕ) : Pass
  | computeView (portal level : ℕ) : Pass
  | clearDepth (portal level : ℕ) : Pass
  | renderContent (portal level : ℕ) : Pass
  | sealDepth (portal level : ℕ) : Pass
  | restoreStencil (portal level : ℕ) : Pass
deriving DecidableEq, Repr

/-- The abstract outcome of the projection-tier selection for one traversal
(the geometric inputs are arbitrary, so the outcome is threaded through the
trace as an oracle indexed by the portal path). -/
inductive ClipOutcome where
  | oblique : ClipOutcome
  | fallback : ClipOutcome
  | abortBehind : ClipOutcome
  | abortNear : ClipOutcome
deriving DecidableEq, Repr

/-- Whether the outcome aborts the branch (main_example.cpp lines 1050-1053
and 1064-1068: both abort sites return right after the virtual view was
computed, before the depth-clear and content passes). -/
def ClipOutcome.isAbort : ClipOutcome → Bool
  | ClipOutcome.abortBehind => true
  | ClipOutcome.abortNear => true
  | _ => false

/-- The per-portal guard of the loop in main_example.cpp
RenderPortalsRecursive (lines 869-887): the portal must be active and
linked, and must not be the excluded portal or the excluded portal's
partner. -/
def childAllowed (cfg : PortalConfig) (excludePortal : Option ℕ) (i : ℕ) :
    Bool :=
  cfg.isActive i && (cfg.linked i).isSome &&
    (match excludePortal with
     | none => true
     | some e => !(i == e || cfg.linked e == some i))

/-- main_example.cpp RenderPortalsRecursive (lines 857-897) together with
the inlined pass skeleton of RenderPortalContent (lines 903-1181), as the
list of passes issued, indexed by recursion level, the excluded portal pair
and the path of portals entered so far.  `vis` abstracts the
`IsPortalVisible` cull (its geometric inputs are arbitrary) and `clip` the
projection-tier outcome; `fuel` bounds the structural recursion — every
reachable call has `fuel = MAX_PORTAL_RECURSION - level`, so the level guard
fires before fuel ever runs out (`mainWalk_fuel_stable`).

Pass order per traversal, from the source: stencil mark (step 1), virtual
view (steps 2-3, with the abort sites inside step 3), depth clear (step 4),
content (step 5), recursive children with the traversed pair excluded
(step 6), depth seal (step 6.5), stencil restore (step 7). -/
def mainWalk (cfg : PortalConfig) (vis : List ℕ → ℕ → Bool)
    (clip : List ℕ → ℕ → ClipOutcome) :
    ℕ → ℕ → Option ℕ → List ℕ → List Pass
  | 0, _, _, _ => []
  | fuel + 1, level, excludePortal, path =>
    if MAX_PORTAL_RECURSION ≤ level then []
    else
      ((List.range cfg.numPortals).map (fun i =>
        if childAllowed cfg excludePortal i && vis path i then
          [Pass.enter i level, Pass.mark i level, Pass.computeView i level]
          ++ (if (clip (path ++ [i]) i).isAbort then []
              else
                [Pass.clearDepth i level, Pass.renderContent i level]
                ++ mainWalk cfg vis clip fuel (level + 1) (some i)
                    (path ++ [i])
                ++ [Pass.sealDepth i level, Pass.restoreStencil i level])
        else [])).flatten

/-- The pass trace of one main_example.cpp RenderPortalContent traversal of
`portalIdx` at `level` (the branch body of `mainWalk`): mark, virtual view,
then — unless the projection tier aborts — depth clear, content, the
recursive child walk at `level + 1` with this portal passed as the excluded
pair (line 1137-1138), depth seal and stencil restore. -/
def mainContent (cfg : PortalConfig) (vis : List ℕ → ℕ → Bool)
    (clip : List ℕ → ℕ → ClipOutcome) (fuel portalIdx level : ℕ)
    (path : List ℕ) : List Pass :=
  [Pass.enter portalIdx level, Pass.mark portalIdx level,
   Pass.computeView portalIdx level]
  ++ (if (clip (path ++ [portalIdx]) portalIdx).isAbort then []
      else
        [Pass.clearDepth portalIdx level, Pass.renderContent portalIdx level]
        ++ mainWalk cfg vis clip fuel (level + 1) (some portalIdx)
            (path ++ [portalIdx])
        ++ [Pass.sealDepth portalIdx level,
            Pass.restoreStencil portalIdx level])

theorem mainWalk_succ (cfg : PortalConfig) (vis : List ℕ → ℕ → Bool)
    (clip : List ℕ → ℕ → ClipOutcome) (fuel level : ℕ) (ex : Option ℕ)
    (path : List ℕ) :
    mainWalk cfg vis clip (fuel + 1) level ex path
      = if MAX_PORTAL_RECURSION ≤ level then []
        else
          ((List.range cfg.numPortals).map (fun i =>
            if childAllowed cfg ex i && vis path i then
              mainContent cfg vis clip fuel i level path
            else [])).flatten := by
  rfl

/-- PortalRenderer::RenderPortalRecursive (PortalRenderer.h lines 312-417)
as a pass trace.  Guards: recursion cap, then missing link or inactive
portal.  Pass order from the source: virtual view (steps 1-2), stencil mark
(step 3), depth clear (step 4), recursive children — excluding only the
traversed portal ITSELF, not its partner (step 5, line 390:
`otherPortal != portal && otherPortal->isActive`) — then content (step 6)
and stencil restore (step 7); there is no depth-seal pass. -/
def renderPortalRecursive (cfg : PortalConfig) :
    ℕ → ℕ → ℕ → List Pass
  | 0, _, _ => []
  | fuel + 1, portalIdx, level =>
    if MAX_PORTAL_RECURSION ≤ level then []
    else if cfg.linked portalIdx = none ∨ cfg.isActive portalIdx = false then []
    else
      [Pass.enter portalIdx level, Pass.computeView portalIdx level,
       Pass.mark portalIdx level, Pass.clearDepth portalIdx level]
      ++ ((List.range cfg.numPortals).map (fun other =>
        if !(other == portalIdx) && cfg.isActive other then
          renderPortalRecursive cfg fuel other (level + 1)
        else [])).flatten
      ++ [Pass.renderContent portalIdx level,
          Pass.restoreStencil portalIdx level]

theorem mainWalk_enter_level (cfg : PortalConfig) (vis : List ℕ → ℕ → Bool)
    (clip : List ℕ → ℕ → ClipOutcome) :
    ∀ (fuel level : ℕ) (ex : Option ℕ) (path : List ℕ) (c m : ℕ),
      Pass.enter c m ∈ mainWalk cfg vis clip fuel level ex path → level ≤ m := by
  intro fuel
  induction fuel with
  | zero =>
    intro level ex path c m h
    simp [mainWalk] at h
  | succ fuel ih =>
    intro level ex path c m h
    rw [mainWalk_succ] at h
    by_cases hguard : MAX_PORTAL_RECURSION ≤ level
    · rw [if_pos hguard] at h
      simp at h
    · rw [if_neg hguard] at h
      rw [List.mem_flatten] at h
      obtain ⟨l, hl, hml⟩ := h
      rw [List.mem_map] at hl
      obtain ⟨i, hi, rfl⟩ := hl
      by_cases hcond : (childAllowed cfg ex i && vis path i) = true
      · rw [if_pos hcond] at hml
        unfold mainContent at hml
        by_cases habort : (clip (path ++ [i]) i).isAbort = true
        · rw [if_pos habort] at hml
          simp only [List.append_nil, List.mem_cons, List.not_mem_nil,
            or_false, Pass.enter.injEq] at hml
          rcases hml with ⟨h1, h2⟩ | h1 | h1
          · omega
          · simp at h1
          · simp at h1
        · rw [if_neg habort] at hml
          rcases List.mem_append.mp hml with h1 | h2
          · simp only [List.mem_cons, List.not_mem_nil, or_false,
              Pass.enter.injEq] at h1
            rcases h1 with ⟨h1a, h1b⟩ | h1 | h1
            · omega
            · simp at h1
            · simp at h1
          · rcases List.mem_append.mp h2 with h3 | h4
            · rcases List.mem_append.mp h3 with h3a | hw
              · simp at h3a
              · have := ih (level + 1) (some i) (path ++ [i]) c m hw
                omega
            · simp at h4
      · rw [if_neg hcond] at hml
        simp at hml

theorem childAllowed_some (cfg : PortalConfig) (e i : ℕ)
    (h : childAllowed cfg (some e) i = true) :
    i ≠ e ∧ cfg.linked e ≠ some i := by
  simp only [childAllowed, Bool.and_eq_true, Bool.not_eq_true',
    Bool.or_eq_false_iff, beq_eq_false_iff_ne] at h
  exact h.2

theorem mainWalk_enter_excluded (cfg : PortalConfig)
    (vis : List ℕ → ℕ → Bool) (clip : List ℕ → ℕ → ClipOutcome)
    (fuel level e : ℕ) (path : List ℕ) (c : ℕ)
    (h : Pass.enter c level ∈ mainWalk cfg vis clip fuel level (some e) path) :
    c ≠ e ∧ cfg.linked e ≠ some c := by
  cases fuel with
  | zero => simp [mainWalk] at h
  | succ fuel =>
    rw [mainWalk_succ] at h
    by_cases hguard : MAX_PORTAL_RECURSION ≤ level
    · rw [if_pos hguard] at h
      simp at h
    · rw [if_neg hguard] at h
      rw [List.mem_flatten] at h
      obtain ⟨l, hl, hml⟩ := h
      rw [List.mem_map] at hl
      obtain ⟨i, hi, rfl⟩ := hl
      by_cases hcond : (childAllowed cfg (some e) i && vis path i) = true
      · have hex : i ≠ e ∧ cfg.linked e ≠ some i :=
          childAllowed_some cfg e i ((Bool.and_eq_true _ _).mp hcond).1
        rw [if_pos hcond] at hml
        unfold mainContent at hml
        by_cases habort : (clip (path ++ [i]) i).isAbort = true
        · rw [if_pos habort] at hml
          simp only [List.append_nil, List.mem_cons, List.not_mem_nil,
            or_false, Pass.enter.injEq] at hml
          rcases hml with ⟨h1a, h1b⟩ | h1 | h1
          · subst h1a
            exact hex
          · simp at h1
          · simp at h1
        · rw [if_neg habort] at hml
          rcases List.mem_append.mp hml with h1 | h2
          · simp only [List.mem_cons, List.not_mem_nil, or_false,
              Pass.enter.injEq] at h1
            rcases h1 with ⟨h1a, h1b⟩ | h1 | h1
            · subst h1a
              exact hex
            · simp at h1
            · simp at h1
          · rcases List.mem_append.mp h2 with h3 | h4
            · rcases List.mem_append.mp h3 with h3a | hw
              · simp at h3a
              · have := mainWalk_enter_level cfg vis clip fuel (level + 1)
                  (some i) (path ++ [i]) c level hw
                omega
            · simp at h4
      · rw [if_neg hcond] at hml
        simp at hml

/-- C4 (amended): in main_example.cpp the exclusion holds — a traversal
entered through portal `portalIdx` never invokes a recursive render of
`portalIdx` or of its linked partner at the next recursion level, at any
depth, for every portal configuration and every visibility / projection
outcome: the child walk is started with the traversed portal as the
excluded pair (lines 877-881, 1137-1138).  In PortalRenderer.h's
RenderPortalRecursive only the traversed portal itself is excluded (line
390), so the partner IS re-entered at the next level (see the
counterexample). -/
theorem mainContent_excludes_pair (cfg : PortalConfig)
    (vis : List ℕ → ℕ → Bool) (clip : List ℕ → ℕ → ClipOutcome)
    (fuel portalIdx level : ℕ) (path : List ℕ) (c : ℕ)
    (hmem : Pass.enter c (level + 1)
      ∈ mainContent cfg vis clip fuel portalIdx level path) :
    c ≠ portalIdx ∧ cfg.linked portalIdx ≠ some c := by
  unfold mainContent at hmem
  by_cases habort : (clip (path ++ [portalIdx]) portalIdx).isAbort = true
  · rw [if_pos habort] at hmem
    simp only [List.append_nil, List.mem_cons, List.not_mem_nil, or_false,
      Pass.enter.injEq] at hmem
    rcases hmem with ⟨h1a, h1b⟩ | h1 | h1
    · omega
    · simp at h1
    · simp at h1
  · rw [if_neg habort] at hmem
    rcases List.mem_append.mp hmem with h1 | h2
    · simp only [List.mem_cons, List.not_mem_nil, or_false,
        Pass.enter.injEq] at h1
      rcases h1 with ⟨h1a, h1b⟩ | h1 | h1
      · omega
      · simp at h1
      · simp at h1
    · rcases List.mem_append.mp h2 with h3 | h4
      · rcases List.mem_append.mp h3 with h3a | hw
        · simp at h3a
        · exact mainWalk_enter_excluded cfg vis clip fuel (level + 1)
            portalIdx (path ++ [portalIdx]) c hw
      · simp at h4

/-- Two mutually linked active portals (the demo scene of SetupPortals). -/
def cfg2 : PortalConfig :=
  { numPortals := 2,
    linked := fun i => if i = 0 then some 1 else if i = 1 then some 0 else none,
    isActive := fun _ => true }

/-- Four active portals forming two linked pairs 0-1 and 2-3. -/
def cfg4 : PortalConfig :=
  { numPortals := 4,
    linked := fun i =>
      if i = 0 then some 1
      else if i = 1 then some 0
      else if i = 2 then some 3
      else if i = 3 then some 2
      else none,
    isActive := fun _ => true }

/-- The visibility oracle that culls nothing. -/
def visAll : List ℕ → ℕ → Bool := fun _ _ => true

/-- The projection oracle that always selects oblique clipping (no branch
ever aborts). -/
def clipObliqueAll : List ℕ → ℕ → ClipOutcome := fun _ _ => ClipOutcome.oblique

/-- C4 as stated is false on PortalRenderer.h: with the two mutually linked
active portals of `cfg2`, the traversal entered through portal 0 recursively
renders portal 1 — portal 0's linked partner — at level 1, because
RenderPortalRecursive's child walk (line 390) excludes only the traversed
portal itself. -/
theorem renderPortalRecursive_partner_reentered :
    cfg2.linked 0 = some 1
    ∧ Pass.enter 1 1 ∈ renderPortalRecursive cfg2 2 0 0 := by
  constructor
  · rfl
  · decide

/-- Witness for `mainContent_excludes_pair`: in the four-portal scene the
traversal of portal 0 at level 0 enters portal 2 at level 1, and portal 2
is neither portal 0 nor its partner. -/
theorem mainContent_excludes_pair_witness :
    Pass.enter 2 1 ∈ mainContent cfg4 visAll clipObliqueAll 1 0 0 []
    ∧ (2 ≠ 0 ∧ cfg4.linked 0 ≠ some 2) :=
  ⟨by decide,
    mainContent_excludes_pair cfg4 visAll clipObliqueAll 1 0 0 [] 2 (by decide)⟩

/-- C5 (amended): the per-traversal pass order of both renderers.  In
main_example.cpp a traversal executes Mark, then ComputeVirtualView (with
the degeneracy aborts right after it), then ClearDepth, then its OWN
RenderContent, then the recursive children at the next level (with the
traversed pair excluded), then SealDepth, then RestoreStencil — the content
pass precedes the children, not the other way around.  In PortalRenderer.h
the order is ComputeVirtualView, Mark, ClearDepth, the recursive children,
then RenderContent and RestoreStencil, with no depth-seal pass. -/
theorem renderPasses_order :
    (∀ (cfg : PortalConfig) (vis : List ℕ → ℕ → Bool)
        (clip : List ℕ → ℕ → ClipOutcome) (fuel portalIdx level : ℕ)
        (path : List ℕ),
      (clip (path ++ [portalIdx]) portalIdx).isAbort = false →
      mainContent cfg vis clip fuel portalIdx level path
        = [Pass.enter portalIdx level, Pass.mark portalIdx level,
           Pass.computeView portalIdx level, Pass.clearDepth portalIdx level,
           Pass.renderContent portalIdx level]
          ++ mainWalk cfg vis clip fuel (level + 1) (some portalIdx)
              (path ++ [portalIdx])
          ++ [Pass.sealDepth portalIdx level,
              Pass.restoreStencil portalIdx level])
    ∧ (∀ (cfg : PortalConfig) (vis : List ℕ → ℕ → Bool)
        (clip : List ℕ → ℕ → ClipOutcome) (fuel portalIdx level : ℕ)
        (path : List ℕ),
      (clip (path ++ [portalIdx]) portalIdx).isAbort = true →
      mainContent cfg vis clip fuel portalIdx level path
        = [Pass.enter portalIdx level, Pass.mark portalIdx level,
           Pass.computeView portalIdx level])
    ∧ (∀ (cfg : PortalConfig) (fuel portalIdx level : ℕ),
      ¬MAX_PORTAL_RECURSION ≤ level →
      ¬(cfg.linked portalIdx = none ∨ cfg.isActive portalIdx = false) →
      renderPortalRecursive cfg (fuel + 1) portalIdx level
        = [Pass.enter portalIdx level, Pass.computeView portalIdx level,
           Pass.mark portalIdx level, Pass.clearDepth portalIdx level]
          ++ ((List.range cfg.numPortals).map (fun other =>
               if !(other == portalIdx) && cfg.isActive other then
                 renderPortalRecursive cfg fuel other (level + 1)
               else [])).flatten
          ++ [Pass.renderContent portalIdx level,
              Pass.restoreStencil portalIdx level]) := by
  refine ⟨?_, ?_, ?_⟩
  · intro cfg vis clip fuel portalIdx level path h
    unfold mainContent
    rw [if_neg (by simp [h])]
    simp
  · intro cfg vis clip fuel portalIdx level path h
    unfold mainContent
    rw [if_pos h]
    simp
  · intro cfg fuel portalIdx level h1 h2
    simp only [renderPortalRecursive]
    rw [if_neg h1, if_neg h2]

/-- C5 as stated is false on the code: in main_example.cpp's traversal of
portal 0 at level 0 (four-portal scene, nothing culled or aborted), the
traversal's OWN content pass is issued before the recursive child's content
pass at level 1, contradicting the claimed
`... -> RecurseChildren -> RenderContent -> ...` order. -/
theorem renderContent_before_children_counterexample :
    Pass.renderContent 0 0 ∈ mainContent cfg4 visAll clipObliqueAll 1 0 0 []
    ∧ Pass.renderContent 2 1 ∈ mainContent cfg4 visAll clipObliqueAll 1 0 0 []
    ∧ List.indexOf (Pass.renderContent 0 0)
        (mainContent cfg4 visAll clipObliqueAll 1 0 0 [])
      < List.indexOf (Pass.renderContent 2 1)
        (mainContent cfg4 visAll clipObliqueAll 1 0 0 []) := by
  refine ⟨by decide, by decide, by decide⟩

/-- Witness for `renderPasses_order` on the four-portal scene at portal 0,
level 0 (non-abort tier), and for the header renderer on cfg2. -/
theorem renderPasses_order_witness :
    mainContent cfg4 visAll clipObliqueAll 1 0 0 []
      = [Pass.enter 0 0, Pass.mark 0 0, Pass.computeView 0 0,
         Pass.clearDepth 0 0, Pass.renderContent 0 0]
        ++ mainWalk cfg4 visAll clipObliqueAll 1 1 (some 0) [0]
        ++ [Pass.sealDepth 0 0, Pass.restoreStencil 0 0]
    ∧ renderPortalRecursive cfg2 2 0 0
      = [Pass.enter 0 0, Pass.computeView 0 0, Pass.mark 0 0,
         Pass.clearDepth 0 0]
        ++ ((List.range cfg2.numPortals).map (fun other =>
             if !(other == 0) && cfg2.isActive other then
               renderPortalRecursive cfg2 1 other 1
             else [])).flatten
        ++ [Pass.renderContent 0 0, Pass.restoreStencil 0 0] :=
  ⟨renderPasses_order.1 cfg4 visAll clipObliqueAll 1 0 0 [] (by decide),
   renderPasses_order.2.2 cfg2 1 0 0 (by decide) (by decide)⟩

/-- Whether a pass is a content-render pass (one invocation of the
scene-drawing collaborator for a traversal). -/
def Pass.isRenderContent : Pass → Bool
  | Pass.renderContent _ _ => true
  | _ => false

/-- The number of content-render passes in a trace. -/
def contentCount (l : List Pass) : ℕ :=
  (l.filter Pass.isRenderContent).length

/-- The per-fuel bound on content passes: at most `n` traversals per walk,
each with one content pass plus a child walk one level deeper. -/
def passBound (n : ℕ) : ℕ → ℕ
  | 0 => 0
  | fuel + 1 => n * (1 + passBound n fuel)

/-- One frame's full recursive walk (main_example.cpp line 1277:
`RenderPortalsRecursive(view, proj, camPos, front, 0, 0, t)` with no
excluded portal). -/
def mainFrameTrace (cfg : PortalConfig) (vis : List ℕ → ℕ → Bool)
    (clip : List ℕ → ℕ → ClipOutcome) : List Pass :=
  mainWalk cfg vis clip MAX_PORTAL_RECURSION 0 none []

theorem contentCount_append (a b : List Pass) :
    contentCount (a ++ b) = contentCount a + contentCount b := by
  simp [contentCount, List.filter_append]

theorem contentCount_flatten_le (L : List (List Pass)) (B : ℕ)
    (h : ∀ l ∈ L, contentCount l ≤ B) :
    contentCount L.flatten ≤ L.length * B := by
  induction L with
  | nil => simp [contentCount]
  | cons a t ih =>
    rw [List.flatten_cons, contentCount_append]
    have h1 := h a (List.mem_cons_self a t)
    have h2 := ih (fun l hl => h l (List.mem_cons_of_mem a hl))
    calc contentCount a + contentCount t.flatten
        ≤ B + t.length * B := Nat.add_le_add h1 h2
      _ = (t.length + 1) * B := by ring
      _ = (a :: t).length * B := by simp

theorem contentCount_triple (p i level : ℕ) :
    contentCount [Pass.enter p level, Pass.mark i level,
      Pass.computeView i level] = 0 := by
  simp [contentCount, List.filter, Pass.isRenderContent]

theorem mainContent_contentCount_le (cfg : PortalConfig)
    (vis : List ℕ → ℕ → Bool) (clip : List ℕ → ℕ → ClipOutcome)
    (fuel : ℕ)
    (hwalk : ∀ (level : ℕ) (ex : Option ℕ) (path : List ℕ),
      contentCount (mainWalk cfg vis clip fuel level ex path)
        ≤ passBound cfg.numPortals fuel)
    (portalIdx level : ℕ) (path : List ℕ) :
    contentCount (mainContent cfg vis clip fuel portalIdx level path)
      ≤ 1 + passBound cfg.numPortals fuel := by
  unfold mainContent
  rw [contentCount_append]
  by_cases habort : (clip (path ++ [portalIdx]) portalIdx).isAbort = true
  · rw [if_pos habort]
    simp [contentCount, List.filter, Pass.isRenderContent]
  · rw [if_neg habort, contentCount_append, contentCount_append]
    have hw := hwalk (level + 1) (some portalIdx) (path ++ [portalIdx])
    have h1 : contentCount [Pass.enter portalIdx level,
        Pass.mark portalIdx level, Pass.computeView portalIdx level] = 0 := by
      simp [contentCount, List.filter, Pass.isRenderContent]
    have h2 : contentCount [Pass.clearDepth portalIdx level,
        Pass.renderContent portalIdx level] = 1 := by
      simp [contentCount, List.filter, Pass.isRenderContent]
    have h3 : contentCount [Pass.sealDepth portalIdx level,
        Pass.restoreStencil portalIdx level] = 0 := by
      simp [contentCount, List.filter, Pass.isRenderContent]
    omega

theorem mainWalk_contentCount_le (cfg : PortalConfig)
    (vis : List ℕ → ℕ → Bool) (clip : List ℕ → ℕ → ClipOutcome) :
    ∀ (fuel level : ℕ) (ex : Option ℕ) (path : List ℕ),
      contentCount (mainWalk cfg vis clip fuel level ex path)
        ≤ passBound cfg.numPortals fuel := by
  intro fuel
  induction fuel with
  | zero =>
    intro level ex path
    simp [mainWalk, contentCount]
  | succ fuel ih =>
    intro level ex path
    rw [mainWalk_succ]
    by_cases hguard : MAX_PORTAL_RECURSION ≤ level
    · rw [if_pos hguard]
      simp [contentCount]
    · rw [if_neg hguard]
      have hbound : ∀ l ∈ (List.range cfg.numPortals).map (fun i =>
          if childAllowed cfg ex i && vis path i then
            mainContent cfg vis clip fuel i level path
          else []), contentCount l ≤ 1 + passBound cfg.numPortals fuel := by
        intro l hl
        rw [List.mem_map] at hl
        obtain ⟨i, hi, rfl⟩ := hl
        by_cases hcond : (childAllowed cfg ex i && vis path i) = true
        · rw [if_pos hcond]
          exact mainContent_contentCount_le cfg vis clip fuel
            (fun level2 ex2 path2 => ih level2 ex2 path2) i level path
        · rw [if_neg hcond]
          simp [contentCount]
      have := contentCount_flatten_le _ _ hbound
      simpa [passBound, Nat.mul_comm] using this

/-- C7: the recursive walk terminates unconditionally at the fixed maximum
depth 4.  Any call of either renderer's walk at `level >= 4` issues no
passes, and the total number of content-render passes of one frame of
main_example.cpp is bounded by `n + n^2 + n^3 + n^4` for `n` portals,
whatever the visibility and projection outcomes — finite and deterministic
regardless of how long portals stay mutually visible. -/
theorem recursionBounded :
    (∀ (cfg : PortalConfig) (vis : List ℕ → ℕ → Bool)
        (clip : List ℕ → ℕ → ClipOutcome) (fuel level : ℕ) (ex : Option ℕ)
        (path : List ℕ), MAX_PORTAL_RECURSION ≤ level →
      mainWalk cfg vis clip fuel level ex path = [])
    ∧ (∀ (cfg : PortalConfig) (fuel portalIdx level : ℕ),
        MAX_PORTAL_RECURSION ≤ level →
      renderPortalRecursive cfg fuel portalIdx level = [])
    ∧ (∀ (cfg : PortalConfig) (vis : List ℕ → ℕ → Bool)
        (clip : List ℕ → ℕ → ClipOutcome),
      contentCount (mainFrameTrace cfg vis clip)
        ≤ cfg.numPortals + cfg.numPortals ^ 2 + cfg.numPortals ^ 3
          + cfg.numPortals ^ 4) := by
  refine ⟨?_, ?_, ?_⟩
  · intro cfg vis clip fuel level ex path h
    cases fuel with
    | zero => rfl
    | succ fuel =>
      rw [mainWalk_succ, if_pos h]
  · intro cfg fuel portalIdx level h
    cases fuel with
    | zero => rfl
    | succ fuel =>
      simp only [renderPortalRecursive]
      rw [if_pos h]
  · intro cfg vis clip
    have h := mainWalk_contentCount_le cfg vis clip MAX_PORTAL_RECURSION 0
      none []
    have hb : passBound cfg.numPortals MAX_PORTAL_RECURSION
        = cfg.numPortals + cfg.numPortals ^ 2 + cfg.numPortals ^ 3
          + cfg.numPortals ^ 4 := by
      have hstep : passBound cfg.numPortals MAX_PORTAL_RECURSION
          = cfg.numPortals * (1 + cfg.numPortals * (1 + cfg.numPortals
            * (1 + cfg.numPortals * (1 + 0)))) := rfl
      rw [hstep]
      ring
    rw [hb] at h
    exact h

/-- Witness for `recursionBounded`: at level 4 both walks are empty, and the
two-portal frame's content passes stay within `2 + 4 + 8 + 16`. -/
theorem recursionBounded_witness :
    mainWalk cfg2 visAll clipObliqueAll 4 MAX_PORTAL_RECURSION none [] = []
    ∧ renderPortalRecursive cfg2 4 0 MAX_PORTAL_RECURSION = []
    ∧ contentCount (mainFrameTrace cfg2 visAll clipObliqueAll)
        ≤ cfg2.numPortals + cfg2.numPortals ^ 2 + cfg2.numPortals ^ 3
          + cfg2.numPortals ^ 4 :=
  ⟨recursionBounded.1 cfg2 visAll clipObliqueAll 4 MAX_PORTAL_RECURSION none []
      (le_refl _),
    recursionBounded.2.1 cfg2 4 0 MAX_PORTAL_RECURSION (le_refl _),
    recursionBounded.2.2 cfg2 visAll clipObliqueAll⟩

theorem mainWalk_cap (cfg : PortalConfig) (vis : List ℕ → ℕ → Bool)
    (clip : List ℕ → ℕ → ClipOutcome) (fuel level : ℕ) (ex : Option ℕ)
    (path : List ℕ) (h : MAX_PORTAL_RECURSION ≤ level) :
    mainWalk cfg vis clip fuel level ex path = [] := by
  cases fuel with
  | zero => rfl
  | succ fuel => rw [mainWalk_succ, if_pos h]

theorem mainWalk_fuel_stable (cfg : PortalConfig) (vis : List ℕ → ℕ → Bool)
    (clip : List ℕ → ℕ → ClipOutcome) :
    ∀ (fuel fuel2 level : ℕ) (ex : Option ℕ) (path : List ℕ),
      MAX_PORTAL_RECURSION - level ≤ fuel →
      MAX_PORTAL_RECURSION - level ≤ fuel2 →
      mainWalk cfg vis clip fuel level ex path
        = mainWalk cfg vis clip fuel2 level ex path := by
  intro fuel
  induction fuel with
  | zero =>
    intro fuel2 level ex path h1 h2
    have hlev : MAX_PORTAL_RECURSION ≤ level := by omega
    rw [mainWalk_cap cfg vis clip 0 level ex path hlev,
      mainWalk_cap cfg vis clip fuel2 level ex path hlev]
  | succ fuel ih =>
    intro fuel2 level ex path h1 h2
    by_cases hlev : MAX_PORTAL_RECURSION ≤ level
    · rw [mainWalk_cap cfg vis clip (fuel + 1) level ex path hlev,
        mainWalk_cap cfg vis clip fuel2 level ex path hlev]
    · cases fuel2 with
      | zero => omega
      | succ fuel2 =>
        rw [mainWalk_succ, mainWalk_succ, if_neg hlev, if_neg hlev]
        have hmap : ∀ i ∈ List.range cfg.numPortals,
            (if childAllowed cfg ex i && vis path i then
              mainContent cfg vis clip fuel i level path
            else [])
            = (if childAllowed cfg ex i && vis path i then
              mainContent cfg vis clip fuel2 i level path
            else []) := by
          intro i hi
          by_cases hcond : (childAllowed cfg ex i && vis path i) = true
          · rw [if_pos hcond, if_pos hcond]
            unfold mainContent
            rw [ih fuel2 (level + 1) (some i) (path ++ [i]) (by omega)
              (by omega)]
          · rw [if_neg hcond, if_neg hcond]
        rw [List.map_congr_left hmap]
